import Mathlib

/-!
Verification of the build-state coordinator of the serverless-offline
webpack plugin.  The definitions below are a shallow embedding of the
module-level state machine in the plugin's main source file
(`src/unnamed/part_000`): the boolean bundle-validity flag `state`, the
lazy-rebuild flag `forceRebuild`, the pending-callback queue
`compilationCallbacks`, and the handlers wired to the compiler's
`invalid` / `watch-run` / `run` / `done` plugin hooks, plus the
resolver facade (`resolveWhenReady`, `resolveHandler`, `doResolve`)
and the artifact loader (`src/src/RequireFromString.js`).

Side effects of the JavaScript code are made explicit as trace fields:
`runCalls` counts invocations of `compiler.run(...)`, `invoked` records
the order in which queued continuations are called, and `logs` records
the log lines emitted by the handlers.
-/

namespace ServerlessWebpack

/-- Log lines emitted by the coordinator and resolver handlers, one
constructor per distinct `log(...)` / `console.*` call site that the
embedded functions can reach. -/
inductive LogMsg where
  /-- "webpack: bundle is now INVALID." (in `invalidPlugin`) -/
  | invalidTransition
  /-- "webpack: wait until bundle finished: ..." (in `resolveWhenReady`) -/
  | waitUntilFinished
  /-- "webpack compiled <stats>" (in `readyCallback`) -/
  | compiled
  /-- `stats.toString(options.stats)` output (in `readyCallback`, guarded by `displayStats`) -/
  | statsOutput
  /-- "webpack: bundle is now VALID." (in `readyCallback`) -/
  | validTransition
  /-- "webpack: resolving <name> with <file>" (in `resolveHandler`) -/
  | resolvingWith (funName : String)
  /-- "webpack: resolving now - ready! - <file>" (in `doResolve`) -/
  | resolvingReady
  /-- "CommonJS module: loading <name> from module with keys <keys>" (in `doResolve`) -/
  | commonJSKeys
  deriving DecidableEq

/-- The module-level mutable state of the plugin, plus effect traces.
`α` is the type of queued continuations (`compilationCallbacks` holds
functions in the source; coordinator-level theorems use `Nat` ids and
the resolver layer uses `Cont` markers). -/
structure CoordState (α : Type) where
  /-- `let state = false` — false: bundle invalid, true: bundle valid. -/
  state : Bool
  /-- `let forceRebuild = false` — in lazy mode, rebuild automatically. -/
  forceRebuild : Bool
  /-- `let compilationCallbacks = []` — FIFO queue of waiting continuations. -/
  compilationCallbacks : List α
  /-- Trace: number of `compiler.run(...)` invocations issued so far. -/
  runCalls : Nat
  /-- Trace: continuations invoked so far, in invocation order. -/
  invoked : List α
  /-- Trace: log lines emitted so far. -/
  logs : List LogMsg
  /-- Trace: number of `process.nextTick(readyCallback)` tasks scheduled
  and not yet run. -/
  pendingTicks : Nat
  deriving DecidableEq

variable {α : Type}

/-- The state of the module right after it is loaded: bundle invalid, no
lazy rebuild requested, empty queue, nothing has run yet. -/
def initState : CoordState α :=
  { state := false, forceRebuild := false, compilationCallbacks := [],
    runCalls := 0, invoked := [], logs := [], pendingTicks := 0 }

/-- `function invalidPlugin()` — the `invalid` hook handler: logs the
transition only when currently valid, then sets `state = false`. -/
def invalidPlugin (s : CoordState α) : CoordState α :=
  let s1 := if s.state then { s with logs := s.logs ++ [LogMsg.invalidTransition] } else s
  { s1 with state := false }

/-- `function invalidAsyncPlugin(compiler, callback)` — the
`watch-run` / `run` hook handler: sets `state = false` first, then
calls `invalidPlugin()` (and then the webpack continuation, which has
no coordinator-visible effect). -/
def invalidAsyncPlugin (s : CoordState α) : CoordState α :=
  invalidPlugin { s with state := false }

/-- `function resolveWhenReady(fn)` — if the bundle is valid, invoke
`fn` immediately (recorded in the `invoked` trace); otherwise log and
push `fn` onto `compilationCallbacks`. -/
def resolveWhenReady (fn : α) (s : CoordState α) : CoordState α :=
  if s.state then
    { s with invoked := s.invoked ++ [fn] }
  else
    { s with logs := s.logs ++ [LogMsg.waitUntilFinished],
             compilationCallbacks := s.compilationCallbacks ++ [fn] }

/-- `function rebuild()` — if valid, invalidate and issue one
`compiler.run(...)`; if a build is already in flight, just set
`forceRebuild`. -/
def rebuild (s : CoordState α) : CoordState α :=
  if s.state then
    { s with state := false, runCalls := s.runCalls + 1 }
  else
    { s with forceRebuild := true }

/-- The body of `compiler.plugin("done", stats => ...)` up to and
including the `forceRebuild` check: set `state = true`, schedule
`readyCallback` through `process.nextTick`, and then — synchronously,
still inside the handler — if `forceRebuild` is set, clear it and call
`rebuild()`. -/
def doneHandler (s : CoordState α) : CoordState α :=
  let s1 := { s with state := true, pendingTicks := s.pendingTicks + 1 }
  if s1.forceRebuild then rebuild { s1 with forceRebuild := false } else s1

/-- Ambient configuration read by `readyCallback`:
`displayStats = (!options.quiet && config.stats !== false) ||
stats.hasErrors() || stats.hasWarnings()`. -/
structure Env where
  displayStats : Bool

/-- `function readyCallback()` — the deferred drain scheduled by the
`done` handler: if the bundle was invalidated again in the meantime,
return without doing anything; otherwise log, clear the queue, and
invoke every queued continuation in FIFO order
(`cbs.forEach(continueBecauseBundleAvailable)`). -/
def readyCallback (env : Env) (s : CoordState α) : CoordState α :=
  if !s.state then s
  else
    { s with
      logs := s.logs ++ [LogMsg.compiled]
        ++ (if env.displayStats then [LogMsg.statsOutput] else [])
        ++ [LogMsg.validTransition],
      compilationCallbacks := [],
      invoked := s.invoked ++ s.compilationCallbacks }

/-- Discrete events processed by the single-threaded event loop. -/
inductive Event (α : Type) where
  /-- The compiler fires its `invalid` hook. -/
  | invalid
  /-- The compiler fires its `watch-run` or `run` hook. -/
  | invalidAsync
  /-- The compiler fires its `done` hook. -/
  | done
  /-- The event loop runs one scheduled `process.nextTick(readyCallback)` task. -/
  | tick
  /-- A caller invokes `rebuild()`. -/
  | rebuildReq
  /-- A caller invokes `resolveWhenReady(fn)`. -/
  | resolveReq (fn : α)

/-- One event-loop step: dispatch a single event to the handler the
source wires it to.  A `tick` runs `readyCallback` only when one was
scheduled by a previous `done`. -/
def step (env : Env) (e : Event α) (s : CoordState α) : CoordState α :=
  match e with
  | Event.invalid => invalidPlugin s
  | Event.invalidAsync => invalidAsyncPlugin s
  | Event.done => doneHandler s
  | Event.tick =>
      if 0 < s.pendingTicks then
        readyCallback env { s with pendingTicks := s.pendingTicks - 1 }
      else s
  | Event.rebuildReq => rebuild s
  | Event.resolveReq fn => resolveWhenReady fn s

/-- A burst of `resolveWhenReady` calls issued one after the other, in
list order. -/
def enqueueAll (ids : List α) (s : CoordState α) : CoordState α :=
  ids.foldl (fun t fn => resolveWhenReady fn t) s

/-- JavaScript values that can flow out of a loaded bundle module:
`undefined`, a handler function (identified by an id), or the exports
container object mapping export names to handler functions. -/
inductive JSValue where
  | undef
  | fn (id : Nat)
  | obj (fields : List (String × Nat))
  deriving DecidableEq

/-- The errors a `resolve(funName)` promise can be rejected with. -/
inductive JSError where
  /-- `new Error('resolve called on state not ready')` -/
  | stateNotReady
  /-- the `err` passed through from `getOutputFileSystem().readFile` -/
  | readError (msg : String)
  /-- an exception thrown while evaluating / destructuring the loaded module -/
  | evalError (msg : String)
  deriving DecidableEq

/-- The observable settlement of the promise created by `resolve(funName)`. -/
inductive Outcome where
  | pending
  | resolved (v : JSValue)
  | rejected (e : JSError)
  deriving DecidableEq

/-- JavaScript property access `v[k]`: throws a TypeError on
`undefined`, yields `undefined` for a missing key, and yields the
keyed function for a present key.  Used for
`loadedModule = loadedModule[funName]`. -/
def getField (v : JSValue) (k : String) : Except JSError JSValue :=
  match v with
  | JSValue.undef => Except.error (JSError.evalError "TypeError: cannot read property of undefined")
  | JSValue.fn _ => Except.ok JSValue.undef
  | JSValue.obj fields =>
      Except.ok (match fields.lookup k with
        | some id => JSValue.fn id
        | none => JSValue.undef)

/-- The behaviour of the external collaborators consulted inside
`doResolve`: the Output Store's `readFile(outputFile, ...)` outcome
(error object or UTF-8 decoded contents), and
`requireFromString(moduleCode, srcFile)` as a function from the code
and source-entry path to either a thrown evaluation error or the
module's exports value. -/
structure ResolveEnv where
  readResult : Except String String
  loadModule : String → Option String → Except String JSValue

/-- The result of running `doResolve` (or the whole `resolveHandler`
executor): the coordinator state afterwards, the promise settlement,
and whether `readFile` was attempted. -/
structure DoResolveOut (α : Type) where
  coord : CoordState α
  outcome : Outcome
  readAttempted : Bool

/-- `function doResolve()` inside `resolveHandler` — the continuation
handed to `resolveWhenReady`: re-check `state` (rejecting with
'resolve called on state not ready' when invalid, without touching the
Output Store or the queue); otherwise read the output file, rejecting
with the read error on failure; otherwise load the module with
`requireFromString` and, when `libraryTarget === 'commonjs'`, extract
the single export keyed by `funName`, resolving with the result. -/
def doResolve (env : ResolveEnv) (libraryTarget : String) (funName : String)
    (srcFile : Option String) (s : CoordState α) : DoResolveOut α :=
  if !s.state then
    { coord := s, outcome := Outcome.rejected JSError.stateNotReady, readAttempted := false }
  else
    let s1 := { s with logs := s.logs ++ [LogMsg.resolvingReady] }
    match env.readResult with
    | Except.error e =>
        { coord := s1, outcome := Outcome.rejected (JSError.readError e), readAttempted := true }
    | Except.ok data =>
        match env.loadModule data srcFile with
        | Except.error e =>
            { coord := s1, outcome := Outcome.rejected (JSError.evalError e), readAttempted := true }
        | Except.ok loadedModule =>
            if libraryTarget = "commonjs" then
              let s2 := { s1 with logs := s1.logs ++ [LogMsg.commonJSKeys] }
              match getField loadedModule funName with
              | Except.error e =>
                  { coord := s2, outcome := Outcome.rejected e, readAttempted := true }
              | Except.ok v =>
                  { coord := s2, outcome := Outcome.resolved v, readAttempted := true }
            else
              { coord := s1, outcome := Outcome.resolved loadedModule, readAttempted := true }

/-- A marker for the `doResolve` closure that `resolveHandler funName`
hands to `resolveWhenReady`; this is what sits in
`compilationCallbacks` at the resolver layer. -/
inductive Cont where
  | doResolveFor (funName : String)
  deriving DecidableEq

/-- `function resolveHandler(funName)` — the promise executor returned
for `resolve(funName)`: compute the output file path, look up
`srcFile = config.entry[funName]` (note: the lookup result is never
checked — an absent name just yields `undefined`), log, and hand
`doResolve` to `resolveWhenReady`, which either runs it immediately
(bundle valid) or queues it (bundle invalid, promise stays pending). -/
def resolveHandler (env : ResolveEnv) (entry : List (String × String))
    (libraryTarget : String) (funName : String) (s : CoordState Cont) : DoResolveOut Cont :=
  let srcFile := entry.lookup funName
  let s0 : CoordState Cont := { s with logs := s.logs ++ [LogMsg.resolvingWith funName] }
  if s0.state then
    doResolve env libraryTarget funName srcFile
      { s0 with invoked := s0.invoked ++ [Cont.doResolveFor funName] }
  else
    { coord := resolveWhenReady (Cont.doResolveFor funName) s0,
      outcome := Outcome.pending, readAttempted := false }

/-- The `output.libraryTarget` normalisation in `makeConfig`: a
configured target outside `['commonjs', 'commonjs2']` is replaced by
`'commonjs2'`; the result is what the module-level `libraryTarget`
refers to afterwards. -/
def normalizeLibraryTarget (t : Option String) : String :=
  match t with
  | some s => if s = "commonjs" ∨ s = "commonjs2" then s else "commonjs2"
  | none => "commonjs2"

/-- The ambient host surface visible inside `RequireFromString.js`:
its own `__dirname` / `__filename`, node's `Module._nodeModulePaths`,
and `path.dirname`. -/
structure Host where
  dirname : String
  filename : String
  nodeModulePaths : String → List String
  pathDirname : String → String

/-- The fresh `new Module(filename, module.parent)` placeholder built
by `requireFromString`, after `m.filename` and `m.paths` are
assigned. -/
structure NodeModule where
  id : Option String
  filename : Option String
  paths : List String
  exports : JSValue
  deriving DecidableEq

/-- The value bound to each name of the `locals` object handed to
`vm.runInNewContext`: a reference to the fresh module or its exports,
a string constant, or one of the pass-through host globals. -/
inductive HostBinding where
  | moduleRef
  | exportsRef
  | strVal (s : String)
  | hostConsole
  | hostProcess
  | hostRequire
  deriving DecidableEq

/-- The evaluation scope built by `requireFromString`: the fresh
module `m` and the `locals` binding list, in source order. -/
structure EvalScope where
  m : NodeModule
  bindings : List (String × HostBinding)
  deriving DecidableEq

/-- The scope-construction part of
`module.exports = function requireFromString(code, filename, opts)`:
build the fresh module (id and filename from the `filename` argument,
search paths `opts.prependPaths ++ Module._nodeModulePaths(path.dirname(filename))
++ opts.appendPaths`, empty exports object) and the `locals` object
with bindings `module`, `exports`, `__dirname`, `__filename`,
`console`, `process`, `require` — where `__dirname` / `__filename`
are the host module's own values, written literally as `__dirname:__dirname`
and `__filename:__filename` in the source. -/
def requireFromStringScope (host : Host) (filename : String)
    (prependPaths appendPaths : List String) : EvalScope :=
  let paths := host.nodeModulePaths (host.pathDirname filename)
  let m : NodeModule :=
    { id := some filename, filename := some filename,
      paths := prependPaths ++ paths ++ appendPaths, exports := JSValue.obj [] }
  { m := m,
    bindings :=
      [("module", HostBinding.moduleRef),
       ("exports", HostBinding.exportsRef),
       ("__dirname", HostBinding.strVal host.dirname),
       ("__filename", HostBinding.strVal host.filename),
       ("console", HostBinding.hostConsole),
       ("process", HostBinding.hostProcess),
       ("require", HostBinding.hostRequire)] }

/-- `requireFromString(code, filename)` with default opts: build the
scope, evaluate `code` in it (`vm.runInNewContext(code, locals)`,
modelled by the host-supplied `vmRun` mutating the module through the
scope), and return the resulting `m.exports`. -/
def requireFromString (host : Host) (vmRun : String → NodeModule → NodeModule)
    (code : String) (filename : String) : JSValue :=
  (vmRun code (requireFromStringScope host filename [] []).m).exports

end ServerlessWebpack

namespace ServerlessWebpack

theorem rebuild_invalid_eq (s : CoordState α) (h : s.state = false) :
    rebuild s = { s with forceRebuild := true } := by
  simp [rebuild, h]

theorem rebuild_invalid_forced_fixed (s : CoordState α) (h : s.state = false)
    (h2 : s.forceRebuild = true) : rebuild s = s := by
  cases s
  simp_all [rebuild]

theorem rebuild_iterate_fixed (t : CoordState α) (h : t.state = false)
    (h2 : t.forceRebuild = true) (k : Nat) : rebuild^[k] t = t := by
  induction k with
  | zero => rfl
  | succ m ih => rw [Function.iterate_succ_apply, rebuild_invalid_forced_fixed t h h2, ih]

theorem rebuild_iterate_invalid (s : CoordState α) (h : s.state = false)
    (n : Nat) (hn : 1 ≤ n) :
    rebuild^[n] s = { s with forceRebuild := true } := by
  obtain ⟨k, rfl⟩ : ∃ k, n = k + 1 := ⟨n - 1, by omega⟩
  rw [Function.iterate_succ_apply, rebuild_invalid_eq s h]
  exact rebuild_iterate_fixed { s with forceRebuild := true } h rfl k

/-- C1: every burst of `rebuild()` calls made while the bundle is
invalid issues no `compiler.run` of its own and collapses into the
single `forceRebuild` flag; the next `done` handler consumes and
clears the flag, issuing exactly one further `compiler.run` no matter
how many calls were in the burst — and in general the `done` handler
issues at most one further run. -/
theorem rebuild_coalesces_to_single_run (s : CoordState α) (n : Nat)
    (h : s.state = false) (hn : 1 ≤ n) :
    (rebuild^[n] s).runCalls = s.runCalls ∧
    (rebuild^[n] s).forceRebuild = true ∧
    (doneHandler (rebuild^[n] s)).runCalls = s.runCalls + 1 ∧
    (doneHandler (rebuild^[n] s)).forceRebuild = false ∧
    (∀ m : Nat, (doneHandler (rebuild^[m] s)).runCalls ≤ s.runCalls + 1) := by
  rw [rebuild_iterate_invalid s h n hn]
  refine ⟨rfl, rfl, by simp [doneHandler, rebuild], by simp [doneHandler, rebuild], ?_⟩
  intro m
  cases m with
  | zero =>
      cases hf : s.forceRebuild <;> simp [doneHandler, rebuild, hf]
  | succ k =>
      rw [rebuild_iterate_invalid s h (k + 1) (Nat.succ_le_succ (Nat.zero_le k))]
      simp [doneHandler, rebuild]

theorem rebuild_coalesces_to_single_run_witness :
    (rebuild^[3] (initState : CoordState Nat)).runCalls = (initState : CoordState Nat).runCalls ∧
    (rebuild^[3] (initState : CoordState Nat)).forceRebuild = true ∧
    (doneHandler (rebuild^[3] (initState : CoordState Nat))).runCalls
      = (initState : CoordState Nat).runCalls + 1 ∧
    (doneHandler (rebuild^[3] (initState : CoordState Nat))).forceRebuild = false ∧
    (∀ m : Nat, (doneHandler (rebuild^[m] (initState : CoordState Nat))).runCalls
      ≤ (initState : CoordState Nat).runCalls + 1) :=
  rebuild_coalesces_to_single_run initState 3 rfl (by decide)

/-- C2 counterexample: a continuation is queued and `forceRebuild` is
set when the `done` handler fires.  The handler clears the flag and
issues the rebuild synchronously — before the deferred drain runs —
and the drain then finds the bundle invalid and invokes nothing, so
the queued continuation is not invoked at all, contradicting "the
queue is drained first … and only after that draining is the
RebuildFlag cleared and exactly one rebuild request issued". -/
theorem done_rebuild_precedes_drain_cex :
    (step { displayStats := false } Event.done
        (⟨false, true, [0], 0, [], [], 0⟩ : CoordState Nat)).runCalls = 1 ∧
    (step { displayStats := false } Event.done
        (⟨false, true, [0], 0, [], [], 0⟩ : CoordState Nat)).forceRebuild = false ∧
    (step { displayStats := false } Event.done
        (⟨false, true, [0], 0, [], [], 0⟩ : CoordState Nat)).state = false ∧
    (step { displayStats := false } Event.tick (step { displayStats := false } Event.done
        (⟨false, true, [0], 0, [], [], 0⟩ : CoordState Nat))).invoked = [] ∧
    (step { displayStats := false } Event.tick (step { displayStats := false } Event.done
        (⟨false, true, [0], 0, [], [], 0⟩ : CoordState Nat))).compilationCallbacks = [0] := by
  decide

/-- C2 amended: when the `done` handler runs with `forceRebuild` set,
it schedules the deferred drain and then — synchronously, before the
drain runs — clears the flag and issues exactly one rebuild; that
rebuild puts the bundle back in the invalid state, so the deferred
drain invokes no queued continuation and leaves the queue intact for
the build it just triggered. -/
theorem done_with_forceRebuild_skips_drain (env : Env) (s : CoordState α)
    (h : s.forceRebuild = true) :
    (step env Event.done s).forceRebuild = false ∧
    (step env Event.done s).runCalls = s.runCalls + 1 ∧
    (step env Event.done s).state = false ∧
    (step env Event.done s).compilationCallbacks = s.compilationCallbacks ∧
    (step env Event.tick (step env Event.done s)).invoked = s.invoked ∧
    (step env Event.tick (step env Event.done s)).compilationCallbacks
      = s.compilationCallbacks := by
  simp [step, doneHandler, rebuild, readyCallback, h]

theorem done_with_forceRebuild_skips_drain_witness :
    (step { displayStats := true } Event.done
        (⟨false, true, [4, 5], 0, [], [], 0⟩ : CoordState Nat)).forceRebuild = false ∧
    (step { displayStats := true } Event.done
        (⟨false, true, [4, 5], 0, [], [], 0⟩ : CoordState Nat)).runCalls
      = (⟨false, true, [4, 5], 0, [], [], 0⟩ : CoordState Nat).runCalls + 1 ∧
    (step { displayStats := true } Event.done
        (⟨false, true, [4, 5], 0, [], [], 0⟩ : CoordState Nat)).state = false ∧
    (step { displayStats := true } Event.done
        (⟨false, true, [4, 5], 0, [], [], 0⟩ : CoordState Nat)).compilationCallbacks
      = (⟨false, true, [4, 5], 0, [], [], 0⟩ : CoordState Nat).compilationCallbacks ∧
    (step { displayStats := true } Event.tick (step { displayStats := true } Event.done
        (⟨false, true, [4, 5], 0, [], [], 0⟩ : CoordState Nat))).invoked
      = (⟨false, true, [4, 5], 0, [], [], 0⟩ : CoordState Nat).invoked ∧
    (step { displayStats := true } Event.tick (step { displayStats := true } Event.done
        (⟨false, true, [4, 5], 0, [], [], 0⟩ : CoordState Nat))).compilationCallbacks
      = (⟨false, true, [4, 5], 0, [], [], 0⟩ : CoordState Nat).compilationCallbacks :=
  done_with_forceRebuild_skips_drain { displayStats := true } ⟨false, true, [4, 5], 0, [], [], 0⟩ rfl

/-- C3: the deferred drain re-checks the bundle state: on an invalid
bundle it is a no-op (no continuation invoked, queue and state
untouched); in particular, when a completion and an invalidation are
both processed before the scheduled drain runs, the drain invokes no
queued continuation. -/
theorem drain_observes_invalid_no_invocation (env : Env) (s : CoordState α) :
    (s.state = false → readyCallback env s = s) ∧
    (step env Event.tick (step env Event.invalid (step env Event.done s))).invoked
      = s.invoked := by
  constructor
  · intro h
    simp [readyCallback, h]
  · rcases s with ⟨st, fr, cbs, rc, inv, lg, pt⟩
    cases st <;> cases fr <;>
      simp [step, doneHandler, invalidPlugin, rebuild, readyCallback]

theorem drain_observes_invalid_no_invocation_witness :
    readyCallback { displayStats := false } (⟨false, false, [7], 0, [], [], 0⟩ : CoordState Nat)
      = (⟨false, false, [7], 0, [], [], 0⟩ : CoordState Nat) ∧
    (step { displayStats := false } Event.tick (step { displayStats := false } Event.invalid
        (step { displayStats := false } Event.done
          (⟨false, false, [7], 0, [], [], 0⟩ : CoordState Nat)))).invoked
      = (⟨false, false, [7], 0, [], [], 0⟩ : CoordState Nat).invoked :=
  ⟨(drain_observes_invalid_no_invocation { displayStats := false }
      (⟨false, false, [7], 0, [], [], 0⟩ : CoordState Nat)).1 rfl,
   (drain_observes_invalid_no_invocation { displayStats := false }
      (⟨false, false, [7], 0, [], [], 0⟩ : CoordState Nat)).2⟩

theorem enqueueAll_fields (ids : List α) (s : CoordState α) (h : s.state = false) :
    (enqueueAll ids s).state = false ∧
    (enqueueAll ids s).forceRebuild = s.forceRebuild ∧
    (enqueueAll ids s).invoked = s.invoked ∧
    (enqueueAll ids s).pendingTicks = s.pendingTicks ∧
    (enqueueAll ids s).compilationCallbacks = s.compilationCallbacks ++ ids := by
  induction ids generalizing s with
  | nil => simpa [enqueueAll] using h
  | cons a as ih =>
      have hr : resolveWhenReady a s
          = { s with logs := s.logs ++ [LogMsg.waitUntilFinished],
                     compilationCallbacks := s.compilationCallbacks ++ [a] } := by
        simp [resolveWhenReady, h]
      have hstep : enqueueAll (a :: as) s = enqueueAll as (resolveWhenReady a s) := by
        simp [enqueueAll]
      rw [hstep, hr]
      have := ih { s with logs := s.logs ++ [LogMsg.waitUntilFinished],
                          compilationCallbacks := s.compilationCallbacks ++ [a] } h
      simpa [List.append_assoc] using this

/-- C4: continuations registered through `resolveWhenReady` while the
bundle is invalid are appended to `compilationCallbacks` in call
order, and once a `done` completes (with no lazy rebuild pending) the
deferred drain invokes exactly that queue, in the same FIFO order,
emptying it. -/
theorem queued_callbacks_fifo_order (env : Env) (s : CoordState α) (ids : List α)
    (h : s.state = false) (h2 : s.forceRebuild = false) :
    (enqueueAll ids s).compilationCallbacks = s.compilationCallbacks ++ ids ∧
    (step env Event.tick (step env Event.done (enqueueAll ids s))).invoked
      = s.invoked ++ (s.compilationCallbacks ++ ids) ∧
    (step env Event.tick (step env Event.done (enqueueAll ids s))).compilationCallbacks
      = [] := by
  obtain ⟨h1, hfr, hinv, hpt, hcbs⟩ := enqueueAll_fields ids s h
  refine ⟨hcbs, ?_, ?_⟩ <;>
    simp [step, doneHandler, readyCallback, hfr, h2, hinv, hcbs]

theorem queued_callbacks_fifo_order_witness :
    (enqueueAll [1, 2, 3] (initState : CoordState Nat)).compilationCallbacks
      = (initState : CoordState Nat).compilationCallbacks ++ [1, 2, 3] ∧
    (step { displayStats := false } Event.tick (step { displayStats := false } Event.done
        (enqueueAll [1, 2, 3] (initState : CoordState Nat)))).invoked
      = (initState : CoordState Nat).invoked
        ++ ((initState : CoordState Nat).compilationCallbacks ++ [1, 2, 3]) ∧
    (step { displayStats := false } Event.tick (step { displayStats := false } Event.done
        (enqueueAll [1, 2, 3] (initState : CoordState Nat)))).compilationCallbacks = [] :=
  queued_callbacks_fifo_order { displayStats := false } initState [1, 2, 3] rfl rfl

/-- C5 counterexample: with EntryMap `[("alpha", "/src/a.js")]` and the
bundle invalid, `resolve("gamma")` — a name absent from the map — does
not reject: its promise stays pending, and the `doResolve`
continuation for "gamma" is appended to the coordinator's wait queue,
contradicting "rejects immediately with an UnknownArtifact error,
without reading BuildState and without its continuation ever being
appended to the coordinator's wait queue". -/
theorem resolve_unknown_name_enqueued_cex :
    ([("alpha", "/src/a.js")].lookup "gamma" = (none : Option String)) ∧
    (resolveHandler { readResult := Except.error "unused",
                      loadModule := fun _ _ => Except.error "unused" }
      [("alpha", "/src/a.js")] "commonjs2" "gamma" initState).outcome = Outcome.pending ∧
    (resolveHandler { readResult := Except.error "unused",
                      loadModule := fun _ _ => Except.error "unused" }
      [("alpha", "/src/a.js")] "commonjs2" "gamma" initState).coord.compilationCallbacks
      = [Cont.doResolveFor "gamma"] := by
  refine ⟨rfl, rfl, rfl⟩

/-- C5 amended: `resolveHandler` performs no EntryMap membership check
— `config.entry[funName]` is read but never validated.  A `resolve`
call for a name absent from EntryMap behaves like any other: while the
bundle is invalid its continuation is appended to the wait queue, its
promise stays pending, and nothing is read; any failure surfaces only
later (for example as a `readFile` error for the missing output
file). -/
theorem resolve_no_entry_membership_check (env : ResolveEnv)
    (entry : List (String × String)) (lt funName : String) (s : CoordState Cont)
    (_hmiss : entry.lookup funName = none) (h : s.state = false) :
    (resolveHandler env entry lt funName s).outcome = Outcome.pending ∧
    (resolveHandler env entry lt funName s).coord.compilationCallbacks
      = s.compilationCallbacks ++ [Cont.doResolveFor funName] ∧
    (resolveHandler env entry lt funName s).readAttempted = false := by
  simp [resolveHandler, resolveWhenReady, h]

theorem resolve_no_entry_membership_check_witness :
    (resolveHandler { readResult := Except.error "unused",
                      loadModule := fun _ _ => Except.error "unused" }
      [("alpha", "/src/a.js")] "commonjs" "gamma" initState).outcome = Outcome.pending ∧
    (resolveHandler { readResult := Except.error "unused",
                      loadModule := fun _ _ => Except.error "unused" }
      [("alpha", "/src/a.js")] "commonjs" "gamma" initState).coord.compilationCallbacks
      = (initState : CoordState Cont).compilationCallbacks ++ [Cont.doResolveFor "gamma"] ∧
    (resolveHandler { readResult := Except.error "unused",
                      loadModule := fun _ _ => Except.error "unused" }
      [("alpha", "/src/a.js")] "commonjs" "gamma" initState).readAttempted = false :=
  resolve_no_entry_membership_check
    { readResult := Except.error "unused", loadModule := fun _ _ => Except.error "unused" }
    [("alpha", "/src/a.js")] "commonjs" "gamma" initState rfl rfl

/-- C6 counterexample: from a valid bundle, one `invalidAsyncPlugin`
call (the `watch-run` / `run` hook) is a VALID→INVALID edge, yet it
logs no transition message at all — it sets `state = false` before
delegating to `invalidPlugin`, so the latter's guard never sees the
valid state.  This contradicts "the transition message is logged
exactly once per VALID→INVALID edge". -/
theorem invalidAsync_edge_logs_nothing_cex :
    ((⟨true, false, [], 0, [], [], 0⟩ : CoordState Nat).state = true) ∧
    (invalidAsyncPlugin (⟨true, false, [], 0, [], [], 0⟩ : CoordState Nat)).state = false ∧
    (invalidAsyncPlugin (⟨true, false, [], 0, [], [], 0⟩ : CoordState Nat)).logs = [] := by
  decide

/-- C6 amended: `invalidPlugin` itself is idempotent and logs the
transition exactly once per VALID→INVALID edge — two consecutive calls
from a valid state leave the bundle invalid with exactly one logged
transition, and a call on an already-invalid bundle changes no log and
keeps the state invalid.  However, invocations through the
`watch-run` / `run` hooks (`invalidAsyncPlugin`) set `state = false`
before delegating to `invalidPlugin`, so they never log the
transition, even on a VALID→INVALID edge. -/
theorem invalidPlugin_idempotent_single_log (s : CoordState α) (h : s.state = true) :
    (invalidPlugin (invalidPlugin s)).state = false ∧
    (invalidPlugin (invalidPlugin s)).logs = s.logs ++ [LogMsg.invalidTransition] ∧
    (∀ t : CoordState α, t.state = false →
      (invalidPlugin t).logs = t.logs ∧ (invalidPlugin t).state = false) ∧
    (invalidAsyncPlugin s).logs = s.logs ∧
    (invalidAsyncPlugin s).state = false := by
  refine ⟨?_, ?_, ?_, ?_, ?_⟩
  · simp [invalidPlugin]
  · simp [invalidPlugin, h]
  · intro t ht
    simp [invalidPlugin, ht]
  · simp [invalidAsyncPlugin, invalidPlugin]
  · simp [invalidAsyncPlugin, invalidPlugin]

theorem invalidPlugin_idempotent_single_log_witness :
    (invalidPlugin (invalidPlugin (⟨true, false, [], 0, [], [], 0⟩ : CoordState Nat))).state
      = false ∧
    (invalidPlugin (invalidPlugin (⟨true, false, [], 0, [], [], 0⟩ : CoordState Nat))).logs
      = (⟨true, false, [], 0, [], [], 0⟩ : CoordState Nat).logs ++ [LogMsg.invalidTransition] ∧
    (∀ t : CoordState Nat, t.state = false →
      (invalidPlugin t).logs = t.logs ∧ (invalidPlugin t).state = false) ∧
    (invalidAsyncPlugin (⟨true, false, [], 0, [], [], 0⟩ : CoordState Nat)).logs
      = (⟨true, false, [], 0, [], [], 0⟩ : CoordState Nat).logs ∧
    (invalidAsyncPlugin (⟨true, false, [], 0, [], [], 0⟩ : CoordState Nat)).state = false :=
  invalidPlugin_idempotent_single_log (⟨true, false, [], 0, [], [], 0⟩ : CoordState Nat) rfl

/-- C7: with the bundle valid and the output file read and loaded
successfully into an exports container, `doResolve` under
`libraryTarget === 'commonjs'` resolves with only the single export
keyed by `funName` extracted from the container, while under any other
library target (such as 'commonjs2') it resolves with the whole
exports value unchanged. -/
theorem libraryTarget_export_extraction (env : ResolveEnv) (funName : String)
    (srcFile : Option String) (s : CoordState Cont) (data : String)
    (fields : List (String × Nat))
    (hv : s.state = true) (hr : env.readResult = Except.ok data)
    (hl : env.loadModule data srcFile = Except.ok (JSValue.obj fields)) :
    (doResolve env "commonjs" funName srcFile s).outcome
      = Outcome.resolved (match fields.lookup funName with
          | some id => JSValue.fn id
          | none => JSValue.undef) ∧
    ∀ lt : String, lt ≠ "commonjs" →
      (doResolve env lt funName srcFile s).outcome
        = Outcome.resolved (JSValue.obj fields) := by
  constructor
  · simp [doResolve, hv, hr, hl, getField]
  · intro lt hlt
    simp [doResolve, hv, hr, hl, hlt]

theorem libraryTarget_export_extraction_witness :
    (doResolve { readResult := Except.ok "bundle",
                 loadModule := fun _ _ => Except.ok (JSValue.obj [("alpha", 1), ("beta", 2)]) }
      "commonjs" "alpha" (some "/src/a.js")
      (⟨true, false, [], 0, [], [], 0⟩ : CoordState Cont)).outcome
      = Outcome.resolved (JSValue.fn 1) ∧
    (doResolve { readResult := Except.ok "bundle",
                 loadModule := fun _ _ => Except.ok (JSValue.obj [("alpha", 1), ("beta", 2)]) }
      "commonjs2" "alpha" (some "/src/a.js")
      (⟨true, false, [], 0, [], [], 0⟩ : CoordState Cont)).outcome
      = Outcome.resolved (JSValue.obj [("alpha", 1), ("beta", 2)]) :=
  ⟨(libraryTarget_export_extraction
      { readResult := Except.ok "bundle",
        loadModule := fun _ _ => Except.ok (JSValue.obj [("alpha", 1), ("beta", 2)]) }
      "alpha" (some "/src/a.js") (⟨true, false, [], 0, [], [], 0⟩ : CoordState Cont)
      "bundle" [("alpha", 1), ("beta", 2)] rfl rfl rfl).1,
   (libraryTarget_export_extraction
      { readResult := Except.ok "bundle",
        loadModule := fun _ _ => Except.ok (JSValue.obj [("alpha", 1), ("beta", 2)]) }
      "alpha" (some "/src/a.js") (⟨true, false, [], 0, [], [], 0⟩ : CoordState Cont)
      "bundle" [("alpha", 1), ("beta", 2)] rfl rfl rfl).2 "commonjs2" (by decide)⟩

/-- C8 counterexample: with the loader module living at
`/plugin/src/RequireFromString.js` and `path.dirname` mapping the
artifact filename `/target/alpha.js` to `/target`, the scope built by
`requireFromString(code, "/target/alpha.js")` binds `__filename` to
the loader's own `/plugin/src/RequireFromString.js` and `__dirname`
to the loader's own `/plugin/src` — not to the artifact's
`/target/alpha.js` and `/target` — contradicting "the artifact's own
directory and filename identity derived from the filename
argument". -/
theorem injected_identity_is_loader_own_cex :
    ((requireFromStringScope
        { dirname := "/plugin/src", filename := "/plugin/src/RequireFromString.js",
          nodeModulePaths := fun _ => [], pathDirname := fun _ => "/target" }
        "/target/alpha.js" [] []).bindings.lookup "__filename"
      = some (HostBinding.strVal "/plugin/src/RequireFromString.js")) ∧
    ("/plugin/src/RequireFromString.js" ≠ "/target/alpha.js") ∧
    ((requireFromStringScope
        { dirname := "/plugin/src", filename := "/plugin/src/RequireFromString.js",
          nodeModulePaths := fun _ => [], pathDirname := fun _ => "/target" }
        "/target/alpha.js" [] []).bindings.lookup "__dirname"
      = some (HostBinding.strVal "/plugin/src")) ∧
    ("/plugin/src" ≠ "/target") := by
  refine ⟨rfl, by decide, rfl, by decide⟩

/-- C8 amended: the bindings injected into the fresh evaluation scope
are exactly `module`, `exports`, `__dirname`, `__filename`, `console`,
`process`, `require`; `module` is a fresh placeholder whose `filename`
and search paths are derived from the `filename` argument, but
`__dirname` and `__filename` are the loader module's own values —
constants independent of the `filename` argument — and `console`,
`process`, `require` pass through; the returned value is the
`module.exports` populated by evaluating `code` in that scope. -/
theorem requireFromString_scope_bindings (host : Host)
    (vmRun : String → NodeModule → NodeModule)
    (code filename g : String) (pre app : List String) :
    ((requireFromStringScope host filename pre app).bindings.map Prod.fst
      = ["module", "exports", "__dirname", "__filename", "console", "process", "require"]) ∧
    ((requireFromStringScope host filename pre app).bindings.lookup "__dirname"
      = some (HostBinding.strVal host.dirname)) ∧
    ((requireFromStringScope host filename pre app).bindings.lookup "__filename"
      = some (HostBinding.strVal host.filename)) ∧
    ((requireFromStringScope host g pre app).bindings
      = (requireFromStringScope host filename pre app).bindings) ∧
    ((requireFromStringScope host filename pre app).m.filename = some filename) ∧
    ((requireFromStringScope host filename pre app).m.paths
      = pre ++ host.nodeModulePaths (host.pathDirname filename) ++ app) ∧
    (requireFromString host vmRun code filename
      = (vmRun code (requireFromStringScope host filename [] []).m).exports) := by
  refine ⟨rfl, rfl, rfl, rfl, rfl, rfl, rfl⟩

/-- C9: when the Output Store's `readFile` fails while the bundle is
valid, `doResolve` rejects that caller's promise with the underlying
read error, and leaves the bundle state, the `forceRebuild` flag, the
queued continuations, and the invocation trace unchanged — no other
caller is affected. -/
theorem readFile_error_rejects_only_caller (env : ResolveEnv) (lt funName : String)
    (srcFile : Option String) (s : CoordState Cont) (e : String)
    (hv : s.state = true) (hr : env.readResult = Except.error e) :
    (doResolve env lt funName srcFile s).outcome
      = Outcome.rejected (JSError.readError e) ∧
    (doResolve env lt funName srcFile s).coord.state = s.state ∧
    (doResolve env lt funName srcFile s).coord.forceRebuild = s.forceRebuild ∧
    (doResolve env lt funName srcFile s).coord.compilationCallbacks
      = s.compilationCallbacks ∧
    (doResolve env lt funName srcFile s).coord.invoked = s.invoked := by
  refine ⟨?_, ?_, ?_, ?_, ?_⟩ <;> simp [doResolve, hv, hr]

theorem readFile_error_rejects_only_caller_witness :
    (doResolve { readResult := Except.error "ENOENT",
                 loadModule := fun _ _ => Except.error "unused" }
      "commonjs" "alpha" none
      (⟨true, true, [Cont.doResolveFor "beta"], 2, [], [], 0⟩ : CoordState Cont)).outcome
      = Outcome.rejected (JSError.readError "ENOENT") ∧
    (doResolve { readResult := Except.error "ENOENT",
                 loadModule := fun _ _ => Except.error "unused" }
      "commonjs" "alpha" none
      (⟨true, true, [Cont.doResolveFor "beta"], 2, [], [], 0⟩ : CoordState Cont)).coord.state
      = (⟨true, true, [Cont.doResolveFor "beta"], 2, [], [], 0⟩ : CoordState Cont).state ∧
    (doResolve { readResult := Except.error "ENOENT",
                 loadModule := fun _ _ => Except.error "unused" }
      "commonjs" "alpha" none
      (⟨true, true, [Cont.doResolveFor "beta"], 2, [], [], 0⟩ : CoordState Cont)).coord.forceRebuild
      = (⟨true, true, [Cont.doResolveFor "beta"], 2, [], [], 0⟩ : CoordState Cont).forceRebuild ∧
    (doResolve { readResult := Except.error "ENOENT",
                 loadModule := fun _ _ => Except.error "unused" }
      "commonjs" "alpha" none
      (⟨true, true, [Cont.doResolveFor "beta"], 2, [], [], 0⟩ : CoordState Cont)).coord.compilationCallbacks
      = (⟨true, true, [Cont.doResolveFor "beta"], 2, [], [], 0⟩ : CoordState Cont).compilationCallbacks ∧
    (doResolve { readResult := Except.error "ENOENT",
                 loadModule := fun _ _ => Except.error "unused" }
      "commonjs" "alpha" none
      (⟨true, true, [Cont.doResolveFor "beta"], 2, [], [], 0⟩ : CoordState Cont)).coord.invoked
      = (⟨true, true, [Cont.doResolveFor "beta"], 2, [], [], 0⟩ : CoordState Cont).invoked :=
  readFile_error_rejects_only_caller
    { readResult := Except.error "ENOENT", loadModule := fun _ _ => Except.error "unused" }
    "commonjs" "alpha" none
    (⟨true, true, [Cont.doResolveFor "beta"], 2, [], [], 0⟩ : CoordState Cont) "ENOENT" rfl rfl

/-- C10: if the bundle has been invalidated again by the time
`doResolve` actually executes, it rejects that caller's promise with
the 'resolve called on state not ready' error, attempts no read of
the output file, and leaves the coordinator state — in particular the
wait queue — completely unchanged (it does not re-queue itself). -/
theorem doResolve_not_ready_rejects (env : ResolveEnv) (lt funName : String)
    (srcFile : Option String) (s : CoordState Cont) (h : s.state = false) :
    doResolve env lt funName srcFile s
      = { coord := s, outcome := Outcome.rejected JSError.stateNotReady,
          readAttempted := false } := by
  simp [doResolve, h]

theorem doResolve_not_ready_rejects_witness :
    doResolve { readResult := Except.ok "bundle",
                loadModule := fun _ _ => Except.ok (JSValue.obj [("alpha", 1)]) }
      "commonjs" "alpha" (some "/src/a.js")
      (⟨false, false, [Cont.doResolveFor "beta"], 1, [], [], 0⟩ : CoordState Cont)
      = { coord := (⟨false, false, [Cont.doResolveFor "beta"], 1, [], [], 0⟩ : CoordState Cont),
          outcome := Outcome.rejected JSError.stateNotReady, readAttempted := false } :=
  doResolve_not_ready_rejects
    { readResult := Except.ok "bundle",
      loadModule := fun _ _ => Except.ok (JSValue.obj [("alpha", 1)]) }
    "commonjs" "alpha" (some "/src/a.js")
    (⟨false, false, [Cont.doResolveFor "beta"], 1, [], [], 0⟩ : CoordState Cont) rfl

end ServerlessWebpack
